import Mathlib

/-!
Verification development for the job-search pipeline engine
(`job_search_orchestrator.py`, `pipeline_tracker.py`, `application_generator.py`).

The Python code keeps the pipeline as a JSON document (dicts preserving
insertion order); we embed records as Lean structures whose field defaults are
exactly the `dict.get` defaults used by the readers (a missing JSON field and a
field holding the default are indistinguishable to every read site).  Fields
that are read with *different* defaults at different sites are embedded as
`Option` so the per-site default can be applied faithfully.  Python floats are
embedded as exact rationals: every arithmetic operation the engine performs on
them is of the form count/count or a sum of halves, and no claim depends on
binary rounding.  Fallible operations (`datetime.fromisoformat`, subtraction
and comparison of naive vs aware datetimes) run in `Except`; the error payloads
are descriptive strings (the claims depend only on *whether* an exception is
raised, never on CPython's message text).
-/

/-! ### Python `datetime` model

A `PyDateTime` is a point on the microsecond timeline together with an optional
UTC offset (in minutes).  `tz = none` models a naive datetime (as produced by
`datetime.now()` and by offset-free ISO strings); `tz = some o` models an aware
one, whose `micro` is stored in UTC.  Subtracting or ordering a naive and an
aware datetime raises `TypeError` in Python; the model returns an error.
-/

structure PyDateTime where
  micro : Int
  tz : Option Int
deriving DecidableEq, Repr

def usPerDay : Int := 86400000000

/-- Days-from-civil-date algorithm (proleptic Gregorian, epoch 1970-01-01). -/
def daysFromCivil (y m d : Int) : Int :=
  let y' := if m ≤ 2 then y - 1 else y
  let era := y'.fdiv 400
  let yoe := y' - era * 400
  let mp := (m + 9).emod 12
  let doy := (153 * mp + 2).fdiv 5 + d - 1
  let doe := yoe * 365 + yoe.fdiv 4 - yoe.fdiv 100 + doy
  era * 146097 + doe - 719468

/-- Civil date from days since 1970-01-01 (inverse of `daysFromCivil`). -/
def civilFromDays (z0 : Int) : Int × Int × Int :=
  let z := z0 + 719468
  let era := z.fdiv 146097
  let doe := z - era * 146097
  let yoe := (doe - doe.fdiv 1460 + doe.fdiv 36524 - doe.fdiv 146096).fdiv 365
  let y := yoe + era * 400
  let doy := doe - (365 * yoe + yoe.fdiv 4 - yoe.fdiv 100)
  let mp := (5 * doy + 2).fdiv 153
  let d := doy - (153 * mp + 2).fdiv 5 + 1
  let m := if mp < 10 then mp + 3 else mp - 9
  (if m ≤ 2 then y + 1 else y, m, d)

def isLeapYear (y : Int) : Bool :=
  (y.emod 4 == 0 && y.emod 100 != 0) || y.emod 400 == 0

def monthLength (y m : Int) : Int :=
  if m = 2 then (if isLeapYear y then 29 else 28)
  else if m = 4 ∨ m = 6 ∨ m = 9 ∨ m = 11 then 30
  else 31

/-- Read exactly `n` decimal digits, most significant first. -/
def readFixed : Nat → Nat → List Char → Option (Nat × List Char)
  | 0, acc, cs => some (acc, cs)
  | Nat.succ m, acc, cs =>
    match cs with
    | [] => none
    | c :: rest =>
      if c.isDigit then readFixed m (acc * 10 + (c.toNat - 48)) rest else none

def expectChar (c : Char) : List Char → Option (List Char)
  | [] => none
  | x :: rest => if x = c then some rest else none

/-- Read 1–6 fractional-second digits (a 7th digit is a parse error, as in
`datetime.fromisoformat`); returns the value scaled to microseconds. -/
def readFrac : List Char → Nat → Nat → Option (Nat × List Char)
  | [], acc, n => if n = 0 then none else some (acc * 10 ^ (6 - n), [])
  | c :: rest, acc, n =>
    if c.isDigit then
      if 6 ≤ n then none
      else readFrac rest (acc * 10 + (c.toNat - 48)) (n + 1)
    else if n = 0 then none else some (acc * 10 ^ (6 - n), c :: rest)

/-- Optional `:SS[.ffffff]` part of a time; returns (seconds, microseconds). -/
def readSeconds : List Char → Option (Nat × Nat × List Char)
  | ':' :: cs => do
    let (s, cs) ← readFixed 2 0 cs
    match cs with
    | '.' :: cs2 => do
      let (us, cs3) ← readFrac cs2 0 0
      pure (s, us, cs3)
    | _ => pure (s, 0, cs)
  | cs => some (0, 0, cs)

/-- Optional trailing `±HH:MM` UTC offset; must consume the whole input. -/
def readOffset : List Char → Option (Option Int)
  | [] => some none
  | sign :: cs => do
    let sgn : Int ← if sign = '+' then some 1 else if sign = '-' then some (-1) else none
    let (oh, cs) ← readFixed 2 0 cs
    let cs ← expectChar ':' cs
    let (om, cs) ← readFixed 2 0 cs
    guard (cs = [])
    guard (oh ≤ 23 ∧ om ≤ 59)
    pure (some (sgn * (oh * 60 + om)))

/-- Model of `datetime.fromisoformat`: accepts
`YYYY-MM-DD[{T, }HH:MM[:SS[.f{1..6}]][±HH:MM]]` with calendar validation, and
rejects everything else.  (The callers first do `.replace('Z', '+00:00')`.)
Aware results are normalised to UTC on the `micro` timeline. -/
def parseDatetime (str : String) : Option PyDateTime := do
  let cs := str.data
  let (y, cs) ← readFixed 4 0 cs
  let cs ← expectChar '-' cs
  let (mo, cs) ← readFixed 2 0 cs
  let cs ← expectChar '-' cs
  let (d, cs) ← readFixed 2 0 cs
  guard (1 ≤ y ∧ 1 ≤ mo ∧ mo ≤ 12 ∧ 1 ≤ d ∧ (d : Int) ≤ monthLength y mo)
  let days := daysFromCivil y mo d
  match cs with
  | [] => pure ⟨days * usPerDay, none⟩
  | sep :: rest => do
    guard (sep = 'T' ∨ sep = ' ')
    let (h, cs) ← readFixed 2 0 rest
    let cs ← expectChar ':' cs
    let (mi, cs) ← readFixed 2 0 cs
    let (s, us, cs) ← readSeconds cs
    guard (h ≤ 23 ∧ mi ≤ 59 ∧ s ≤ 59)
    let tz ← readOffset cs
    let localMicro : Int :=
      days * usPerDay + ((h * 3600 + mi * 60 + s) * 1000000 + us : Nat)
    match tz with
    | none => pure ⟨localMicro, none⟩
    | some o => pure ⟨localMicro - o * 60000000, some o⟩

def padNum (width n : Nat) : String :=
  let s := toString n
  String.mk (List.replicate (width - s.length) '0') ++ s

/-- Model of `datetime.isoformat()`: local civil fields, `T` separator,
fractional seconds only when nonzero, offset suffix only when aware. -/
def isoformat (dt : PyDateTime) : String :=
  let localMicro := dt.micro + (dt.tz.getD 0) * 60000000
  let days := localMicro.fdiv usPerDay
  let rem := (localMicro.emod usPerDay).toNat
  let ymd := civilFromDays days
  let us := rem % 1000000
  let sec := rem / 1000000
  let offStr :=
    match dt.tz with
    | none => ""
    | some o =>
      (if o < 0 then "-" else "+") ++
        padNum 2 (o.natAbs / 60) ++ ":" ++ padNum 2 (o.natAbs % 60)
  padNum 4 ymd.1.toNat ++ "-" ++ padNum 2 ymd.2.1.toNat ++ "-" ++
    padNum 2 ymd.2.2.toNat ++ "T" ++ padNum 2 (sec / 3600) ++ ":" ++
    padNum 2 (sec / 60 % 60) ++ ":" ++ padNum 2 (sec % 60) ++
    (if us = 0 then "" else "." ++ padNum 6 us) ++ offStr

/-- `dt + timedelta(days=n)` (keeps the tzinfo, as in Python). -/
def addDays (dt : PyDateTime) (n : Int) : PyDateTime :=
  { dt with micro := dt.micro + n * usPerDay }

/-- Datetime subtraction, in microseconds.  Mixing naive and aware operands
raises `TypeError` in Python. -/
def pySubMicro (a b : PyDateTime) : Except String Int :=
  if a.tz.isSome = b.tz.isSome then .ok (a.micro - b.micro)
  else .error "cannot subtract offset-naive and offset-aware datetimes"

/-- `timedelta.days` of a microsecond difference (floor division). -/
def tdDays (m : Int) : Int := m.fdiv usPerDay

/-- Datetime `<=`; mixing naive and aware operands raises `TypeError`. -/
def pyLeDT (a b : PyDateTime) : Except String Bool :=
  if a.tz.isSome = b.tz.isSome then .ok (a.micro ≤ b.micro)
  else .error "cannot compare offset-naive and offset-aware datetimes"

/-- `datetime.weekday()`: Monday = 0.  1970-01-01 was a Thursday. -/
def pyWeekday (dt : PyDateTime) : Int :=
  (((dt.micro + (dt.tz.getD 0) * 60000000).fdiv usPerDay) + 3).emod 7

/-! ### Python dict / string helpers -/

/-- Assignment `d[k] = v` on an insertion-ordered dict: update in place when
the key exists, append otherwise. -/
def dictSet {β : Type} : List (String × β) → String → β → List (String × β)
  | [], k, v => [(k, v)]
  | (k', v') :: t, k, v =>
    if k' = k then (k, v) :: t else (k', v') :: dictSet t k v

/-- `d[k] += 1` on a counter defaultdict. -/
def dictIncr : List (String × Nat) → String → List (String × Nat)
  | [], k => [(k, 1)]
  | (k', v) :: t, k =>
    if k' = k then (k', v + 1) :: t else (k', v) :: dictIncr t k

/-- `str.lower()` (ASCII case mapping; every cased character the engine
handles is ASCII). -/
def pyLower (s : String) : String := ⟨s.data.map Char.toLower⟩

/-- `str.replace(pat, rep)` for a single-character pattern (the engine only
ever replaces `'Z'` and `' '`). -/
def replaceCharList (pat : Char) (rep : List Char) : List Char → List Char
  | [] => []
  | c :: rest => (if c = pat then rep else [c]) ++ replaceCharList pat rep rest

/-- `s.replace('Z', '+00:00')`, applied before every `fromisoformat` call. -/
def pyReplaceZ (s : String) : String :=
  ⟨replaceCharList 'Z' ("+00:00".data) s.data⟩

/-- `s.replace(" ", "_")` (the research-key normalization). -/
def spaceToUnderscore (s : String) : String :=
  ⟨replaceCharList ' ' ("_".data) s.data⟩

/-- `s[:n]` (character slicing). -/
def strTake (s : String) (n : Nat) : String := ⟨s.data.take n⟩

/-- Contiguous-sublist test on character lists. -/
def listInfixOf (needle : List Char) : List Char → Bool
  | [] => needle.isEmpty
  | c :: t => needle.isPrefixOf (c :: t) || listInfixOf needle t

/-- Python substring test `needle in hay`. -/
def strContains (hay needle : String) : Bool :=
  listInfixOf needle.data hay.data

/-! ### Python `round` on exact rationals

CPython's `round(x, n)` rounds half to even.  The engine only ever rounds
ratios of small counts, for which the exact-rational model below agrees with
the float computation on every value a claim touches. -/

def roundHalfEven (q : ℚ) : Int :=
  let f := ⌊q⌋
  let r := q - f
  if r < 1 / 2 then f else if 1 / 2 < r then f + 1
  else if f % 2 = 0 then f else f + 1

def pyRound (prec : Nat) (q : ℚ) : ℚ :=
  (roundHalfEven (q * 10 ^ prec) : ℚ) / 10 ^ prec

/-! ### Record store data model

Field defaults are the `dict.get` defaults of the read sites.  `Option` fields
are those read with different defaults at different sites (`name`, and the
interview fields `stage`, `interviewer`, `outcome`), or written `None`-able
(`role_title`). -/

structure EmailRec where
  send_date : String := ""
  template : String := "unknown"
  response_received : Bool := false
  follow_up_sent : Bool := false
deriving DecidableEq, Repr

structure InterviewRec where
  date : String := ""
  scheduled_date : Option String := none
  ty : String := "unknown"
  stage : Option String := none
  interviewer : Option String := none
  outcome : Option String := none
  feedback : String := ""
  next_steps : String := ""
deriving DecidableEq, Repr

/-- The four qualification sub-scores (`priority_breakdown`). -/
structure QualScores where
  role_appeal : Int
  company_fit : Int
  growth_potential : Int
  likelihood : Int
deriving DecidableEq, Repr

/-- `_analyze_network_opportunities` returns this constant all-empty record. -/
structure NetworkData where
  first_degree_connections : List String := []
  second_degree_connections : List String := []
  alumni_connections : List String := []
  industry_connections : List String := []
  warm_intro_paths : List String := []
  recommended_outreach : List String := []
deriving DecidableEq, Repr

structure Company where
  name : Option String := none
  status : String := "unknown"
  priority_score : Int := 0
  priority_breakdown : Option QualScores := none
  research_date : String := ""
  role_title : Option String := none
  qualification_passed : Bool := false
  research_completed : Bool := false
  application_generated : Bool := false
  emails_sent : List EmailRec := []
  interviews : List InterviewRec := []
  offer_received : Bool := false
  network_opportunities : Option NetworkData := none
  extra : List (String × String) := []
deriving DecidableEq, Repr

structure Stats where
  total_researched : Int := 0
  total_applied : Int := 0
  response_rate : ℚ := 0
  interviews_scheduled : Int := 0
  offers_received : Int := 0
deriving DecidableEq, Repr

/-- The record store root: `companies` is an insertion-ordered mapping from
normalized key to record; `stored_next_actions` is the persisted (unused)
`next_actions` key. -/
structure Pipeline where
  companies : List (String × Company) := []
  stats : Stats := {}
  stored_next_actions : List String := []
deriving DecidableEq, Repr

def emptyPipeline : Pipeline := {}

/-! ### Orchestrator: `_update_pipeline_status`

`_update_pipeline_status(company_name, field, value)` keys by
`company_name.lower()` (no space normalization), mutates only when the key is
already present, and after setting the field unconditionally rewrites `status`
to `'applied'` (resp. `'outreach_sent'`) when the field is a truthy
`application_generated` (resp. `emails_sent`). -/

inductive FieldUpdate where
  | name (v : String)
  | status (v : String)
  | priority_score (v : Int)
  | research_date (v : String)
  | role_title (v : Option String)
  | qualification_passed (v : Bool)
  | research_completed (v : Bool)
  | application_generated (v : Bool)
  | emails_sent (v : List EmailRec)
  | interviews (v : List InterviewRec)
  | offer_received (v : Bool)
  | extra (k : String) (v : String)
deriving DecidableEq, Repr

/-- `company[field] = value`. -/
def setField (c : Company) : FieldUpdate → Company
  | .name v => { c with name := some v }
  | .status v => { c with status := v }
  | .priority_score v => { c with priority_score := v }
  | .research_date v => { c with research_date := v }
  | .role_title v => { c with role_title := v }
  | .qualification_passed v => { c with qualification_passed := v }
  | .research_completed v => { c with research_completed := v }
  | .application_generated v => { c with application_generated := v }
  | .emails_sent v => { c with emails_sent := v }
  | .interviews v => { c with interviews := v }
  | .offer_received v => { c with offer_received := v }
  | .extra k v => { c with extra := dictSet c.extra k v }

/-- The status rewrite after the field assignment (`value` truthiness as in
Python: a list is truthy iff non-empty). -/
def statusAdjust (f : FieldUpdate) (c : Company) : Company :=
  match f with
  | .application_generated b => if b then { c with status := "applied" } else c
  | .emails_sent es => if es.isEmpty then c else { c with status := "outreach_sent" }
  | _ => c

def update_pipeline_status (p : Pipeline) (company_name : String)
    (f : FieldUpdate) : Pipeline :=
  match p.companies.lookup (pyLower company_name) with
  | none => p
  | some c =>
    { p with companies :=
        dictSet p.companies (pyLower company_name) (statusAdjust f (setField c f)) }

/-! ### Orchestrator: `research_company`

The AI research content and the interactive qualification answers are external
collaborators (out-of-scope I/O); they enter as parameters: `ai_research` is
the dict of research text merged by `company_data.update(research_data)` on the
qualified branch, and `interactive` is the validated four-score answer of
`_quick_qualification_check` used when no `--scores` were provided. -/

structure QualityGates where
  min_priority_score : Int := 28
deriving DecidableEq, Repr

/-- Scores passed as `--scores` JSON; each key optional, read with default 8. -/
structure ProvidedScores where
  role_appeal : Option Int := none
  company_fit : Option Int := none
  growth_potential : Option Int := none
  likelihood : Option Int := none
deriving DecidableEq, Repr

def qualBreakdown (interactive : QualScores) : Option ProvidedScores → QualScores
  | some s => ⟨s.role_appeal.getD 8, s.company_fit.getD 8,
               s.growth_potential.getD 8, s.likelihood.getD 8⟩
  | none => interactive

def qualTotal (q : QualScores) : Int :=
  q.role_appeal + q.company_fit + q.growth_potential + q.likelihood

/-- The freshly initialized company record of `research_company`. -/
def initCompany (now : PyDateTime) (company_name : String)
    (role_title : Option String) : Company :=
  { name := some company_name
    research_date := isoformat now
    role_title := role_title
    priority_score := 0
    qualification_passed := false
    research_completed := false
    application_generated := false
    emails_sent := []
    interviews := []
    status := "researching" }

/-- `company_data.update(research_data)` for the AI-research text fields. -/
def mergeExtra (base : List (String × String)) (upd : List (String × String)) :
    List (String × String) :=
  upd.foldl (fun acc kv => dictSet acc kv.1 kv.2) base

/-- The part of `research_company` after the already-researched guard. -/
def research_company_body (cfg : QualityGates) (now : PyDateTime)
    (interactive : QualScores) (ai_research : List (String × String))
    (p : Pipeline) (company_key company_name : String)
    (role_title : Option String) (scores : Option ProvidedScores) :
    Pipeline × Company :=
  let breakdown := qualBreakdown interactive scores
  let total := qualTotal breakdown
  let base := { initCompany now company_name role_title with
                priority_score := total, priority_breakdown := some breakdown }
  if total < cfg.min_priority_score then
    let cd := { base with status := "disqualified" }
    ({ p with companies := dictSet p.companies company_key cd }, cd)
  else
    let cd := { base with
                extra := mergeExtra base.extra ai_research
                network_opportunities := some {}
                research_completed := true
                status := "researched"
                qualification_passed := true }
    ({ p with companies := dictSet p.companies company_key cd
              stats := { p.stats with
                         total_researched := p.stats.total_researched + 1 } },
     cd)

/-- `research_company`: keys by `name.lower().replace(" ", "_")`; returns the
(possibly unchanged) pipeline and the company record it reports. -/
def research_company (cfg : QualityGates) (now : PyDateTime)
    (interactive : QualScores) (ai_research : List (String × String))
    (p : Pipeline) (company_name : String) (role_title : Option String)
    (force_refresh : Bool) (scores : Option ProvidedScores) :
    Pipeline × Company :=
  match (if force_refresh then none
      else p.companies.lookup (spaceToUnderscore (pyLower company_name))) with
  | some existing =>
    if existing.research_completed then (p, existing)
    else research_company_body cfg now interactive ai_research p
      (spaceToUnderscore (pyLower company_name)) company_name role_title scores
  | none => research_company_body cfg now interactive ai_research p
      (spaceToUnderscore (pyLower company_name)) company_name role_title scores

/-! ### Tracker: `_generate_next_actions`

`datetime.fromisoformat` is called here *without* a surrounding try/except, so
an unparsable (or naive-vs-aware mismatched) send date raises; the whole
derivation therefore runs in `Except`. -/

structure ActionItem where
  priority : String
  action : String
  company : String
  due_date : String
  details : String
deriving DecidableEq, Repr

/-- `_calculate_due_date` (this helper does catch parse errors). -/
def calculate_due_date (now : PyDateTime) (base_date_str : String)
    (days : Int) : String :=
  if base_date_str = "" then isoformat now
  else
    match parseDatetime (pyReplaceZ base_date_str) with
    | none => isoformat now
    | some base => isoformat (addDays base days)

/-- The email-follow-up loop of `_generate_next_actions`. -/
def emailFollowupActions (now : PyDateTime) (company_name : String) :
    List EmailRec → Except String (List ActionItem)
  | [] => .ok []
  | e :: rest => do
    let here ←
      if e.send_date ≠ "" ∧ e.response_received = false then do
        let send_date ←
          match parseDatetime (pyReplaceZ e.send_date) with
          | some dt => Except.ok dt
          | none => Except.error ("Invalid isoformat string: " ++ e.send_date)
        let diff ← pySubMicro now send_date
        let days_since := tdDays diff
        if 7 ≤ days_since ∧ e.follow_up_sent = false then
          pure [⟨"medium", "Send follow-up email", company_name, e.send_date,
                 "Original email sent " ++ toString days_since ++ " days ago"⟩]
        else pure []
      else pure []
    let tail ← emailFollowupActions now company_name rest
    pure (here ++ tail)

/-- The interview-follow-up loop of `_generate_next_actions` (no parsing). -/
def interviewFollowupActions (company_name : String)
    (ivs : List InterviewRec) : List ActionItem :=
  ivs.foldr
    (fun iv acc =>
      if iv.outcome = some "pending" ∧ iv.date ≠ "" then
        ⟨"high", "Follow up on interview outcome", company_name, iv.date,
         iv.stage.getD "Interview" ++ " with " ++ iv.interviewer.getD "TBD"⟩ :: acc
      else acc)
    []

/-- Actions contributed by one company record, in source order:
research follow-up, then email follow-ups, then interview follow-ups. -/
def companyActions (now : PyDateTime) (company_key : String) (c : Company) :
    Except String (List ActionItem) := do
  let company_name := c.name.getD company_key
  let research :=
    if c.status = "researched" ∧ c.application_generated = false then
      [⟨"high", "Generate application package", company_name,
        calculate_due_date now c.research_date 2,
        "Research completed, ready for application generation"⟩]
    else []
  let emails ← emailFollowupActions now company_name c.emails_sent
  pure (research ++ emails ++ interviewFollowupActions company_name c.interviews)

/-- The per-company collection loop, before sorting. -/
def collectNextActions (now : PyDateTime) :
    List (String × Company) → Except String (List ActionItem)
  | [] => .ok []
  | (k, c) :: rest => do
    let here ← companyActions now k c
    let tail ← collectNextActions now rest
    pure (here ++ tail)

def priorityOrder (s : String) : Nat :=
  if s = "high" then 3 else if s = "medium" then 2
  else if s = "low" then 1 else 0

/-- `a` may precede `b` in `sort(key=(priority_order, due_date), reverse=True)`:
its key is ≥ `b`'s in the lexicographic tuple order. -/
def actionKeyLe (a b : ActionItem) : Bool :=
  decide (priorityOrder b.priority < priorityOrder a.priority) ||
    (decide (priorityOrder a.priority = priorityOrder b.priority) &&
      decide (b.due_date ≤ a.due_date))

/-- `_generate_next_actions`: collect, stable-sort descending, truncate to 20. -/
def generate_next_actions (now : PyDateTime) (p : Pipeline) :
    Except String (List ActionItem) :=
  (collectNextActions now p.companies).map
    (fun next_actions => (next_actions.mergeSort actionKeyLe).take 20)

/-! ### Tracker: `_generate_weekly_progress` (parses without try/except too) -/

structure WeeklyStats where
  companies_researched : Nat
  applications_submitted : Nat
  emails_sent : Nat
  responses_received : Nat
  interviews_scheduled : Nat
  target_applications : Nat
deriving DecidableEq, Repr

structure WeeklyProgress where
  week_start : String
  week_end : String
  weekly_stats : WeeklyStats
  progress_vs_target : ℚ
  on_track : Bool
deriving DecidableEq, Repr

/-- `week_start <= d <= week_end` with Python's short-circuit chaining. -/
def inWeek (ws we d : PyDateTime) : Except String Bool := do
  let b1 ← pyLeDT ws d
  if b1 then pyLeDT d we else pure false

/-- One datestring's contribution to a weekly counter: parse (raising on
failure), then test window membership. -/
def weeklyHit (ws we : PyDateTime) (date_str : String) :
    Except String Bool :=
  match parseDatetime (pyReplaceZ date_str) with
  | some d => inWeek ws we d
  | none => .error ("Invalid isoformat string: " ++ date_str)

def weeklyEmails (ws we : PyDateTime) :
    List EmailRec → Except String (Nat × Nat)
  | [] => .ok (0, 0)
  | e :: rest => do
    let (sent, resp) ← weeklyEmails ws we rest
    if e.send_date ≠ "" then do
      let hit ← weeklyHit ws we e.send_date
      if hit then
        pure (sent + 1, if e.response_received then resp + 1 else resp)
      else pure (sent, resp)
    else pure (sent, resp)

def weeklyInterviews (ws we : PyDateTime) :
    List InterviewRec → Except String Nat
  | [] => .ok 0
  | iv :: rest => do
    let n ← weeklyInterviews ws we rest
    let schedule_date_str := iv.scheduled_date.getD iv.date
    if schedule_date_str ≠ "" then do
      let hit ← weeklyHit ws we schedule_date_str
      pure (if hit then n + 1 else n)
    else pure n

/-- Per-company loop body: (researched, emails, responses, interviews). -/
def weeklyCompanyCounts (ws we : PyDateTime) (c : Company) :
    Except String (Nat × Nat × Nat × Nat) := do
  let r ←
    if c.research_date ≠ "" then do
      let hit ← weeklyHit ws we c.research_date
      pure (if hit then 1 else 0)
    else pure 0
  let (es, rs) ← weeklyEmails ws we c.emails_sent
  let ivs ← weeklyInterviews ws we c.interviews
  pure (r, es, rs, ivs)

def weeklyCounts (ws we : PyDateTime) :
    List (String × Company) → Except String (Nat × Nat × Nat × Nat)
  | [] => .ok (0, 0, 0, 0)
  | (_, c) :: rest => do
    let (r, e, s, i) ← weeklyCompanyCounts ws we c
    let (r', e', s', i') ← weeklyCounts ws we rest
    pure (r + r', e + e', s + s', i + i')

def generate_weekly_progress (now : PyDateTime) (p : Pipeline) :
    Except String WeeklyProgress := do
  let week_start := addDays now (-(pyWeekday now))
  let week_end := addDays week_start 6
  let (r, e, s, i) ← weeklyCounts week_start week_end p.companies
  let weekly_stats : WeeklyStats :=
    { companies_researched := r
      applications_submitted := 0
      emails_sent := e
      responses_received := s
      interviews_scheduled := i
      target_applications := 5 }
  let application_progress : ℚ :=
    (weekly_stats.applications_submitted : ℚ) / weekly_stats.target_applications
  pure
    { week_start := isoformat week_start
      week_end := isoformat week_end
      weekly_stats := weekly_stats
      progress_vs_target := pyRound 2 application_progress
      on_track := decide ((8 : ℚ) / 10 ≤ application_progress) }

/-! ### Tracker: `_generate_success_metrics` -/

/-- `_has_received_response`. -/
def hasReceivedResponse (c : Company) : Bool :=
  c.emails_sent.any (·.response_received)

structure MetricCounts where
  total_emails : Nat
  responses_received : Nat
  interviews_scheduled : Nat
  total_applications : Nat
  offers_received : Nat
deriving DecidableEq, Repr

/-- One iteration of the counting loop of `_generate_success_metrics`. -/
def metricStep (acc : MetricCounts) (kv : String × Company) : MetricCounts :=
  { total_emails := acc.total_emails + kv.2.emails_sent.length
    responses_received :=
      acc.responses_received + (if hasReceivedResponse kv.2 then 1 else 0)
    interviews_scheduled :=
      acc.interviews_scheduled + (if kv.2.interviews.isEmpty then 0 else 1)
    total_applications :=
      acc.total_applications + (if kv.2.status = "applied" then 1 else 0)
    offers_received :=
      acc.offers_received + (if kv.2.offer_received then 1 else 0) }

/-- The counting loop of `_generate_success_metrics`. -/
def metricCounts (p : Pipeline) : MetricCounts :=
  p.companies.foldl metricStep ⟨0, 0, 0, 0, 0⟩

structure EmailMetrics where
  total_sent : Nat
  responses_received : Nat
  response_rate : ℚ
  target_response_rate : ℚ
  performance_vs_target : ℚ
deriving DecidableEq, Repr

structure ApplicationMetrics where
  total_applications : Nat
  interviews_scheduled : Nat
  interview_conversion_rate : ℚ
  target_conversion_rate : ℚ
  performance_vs_target : ℚ
deriving DecidableEq, Repr

structure OfferMetrics where
  offers_received : Nat
  offer_conversion_rate : ℚ
  pipeline_value : Int
deriving DecidableEq, Repr

structure EfficiencyMetrics where
  average_research_time : ℚ
  average_application_time : ℚ
  target_application_time : ℚ
deriving DecidableEq, Repr

structure SuccessMetrics where
  email_metrics : EmailMetrics
  application_metrics : ApplicationMetrics
  offer_metrics : OfferMetrics
  efficiency_metrics : EfficiencyMetrics
deriving DecidableEq, Repr

/-- Success-metrics targets (`self.targets`, constant in the source). -/
def targetResponseRate : ℚ := 2 / 5
def targetInterviewConversion : ℚ := 7 / 10
def targetTimePerApplication : ℚ := 45

def generate_success_metrics (p : Pipeline) : SuccessMetrics :=
  let c := metricCounts p
  let email_response_rate : ℚ :=
    if 0 < c.total_emails then (c.responses_received : ℚ) / c.total_emails else 0
  let interview_conversion_rate : ℚ :=
    if 0 < c.total_applications then
      (c.interviews_scheduled : ℚ) / c.total_applications
    else 0
  let offer_conversion_rate : ℚ :=
    if 0 < c.interviews_scheduled then
      (c.offers_received : ℚ) / c.interviews_scheduled
    else 0
  -- `research_times` / `application_times` are never appended to in the source
  let research_times : List ℚ := []
  let application_times : List ℚ := []
  { email_metrics :=
      { total_sent := c.total_emails
        responses_received := c.responses_received
        response_rate := pyRound 3 email_response_rate
        target_response_rate := targetResponseRate
        performance_vs_target :=
          if 0 < targetResponseRate then
            pyRound 2 (email_response_rate / targetResponseRate)
          else 0 }
    application_metrics :=
      { total_applications := c.total_applications
        interviews_scheduled := c.interviews_scheduled
        interview_conversion_rate := pyRound 3 interview_conversion_rate
        target_conversion_rate := targetInterviewConversion
        performance_vs_target :=
          if 0 < targetInterviewConversion then
            pyRound 2 (interview_conversion_rate / targetInterviewConversion)
          else 0 }
    offer_metrics :=
      { offers_received := c.offers_received
        offer_conversion_rate := pyRound 3 offer_conversion_rate
        pipeline_value := (c.offers_received : Int) * 165000 }
    efficiency_metrics :=
      { average_research_time :=
          if research_times.isEmpty then 0
          else pyRound 1 (research_times.sum / research_times.length)
        average_application_time :=
          if application_times.isEmpty then 0
          else pyRound 1 (application_times.sum / application_times.length)
        target_application_time := targetTimePerApplication } }

/-! ### Tracker: `_generate_pipeline_summary` and `_calculate_completion_rate` -/

structure PipelineSummary where
  total_companies : Nat
  status_breakdown : List (String × Nat)
  priority_breakdown : List (String × Nat)
  completion_rate : ℚ
  active_opportunities : Nat
deriving DecidableEq, Repr

def priorityBucket (priority : Int) : String :=
  if 35 ≤ priority then "high" else if 28 ≤ priority then "medium" else "low"

def completionStages (status : String) : Nat :=
  (if status ∈ ["researched", "applied", "interviewing", "offered", "hired"]
    then 1 else 0) +
  (if status ∈ ["applied", "interviewing", "offered", "hired"] then 1 else 0) +
  (if status ∈ ["interviewing", "offered", "hired"] then 1 else 0) +
  (if status ∈ ["offered", "hired"] then 1 else 0) +
  (if status = "hired" then 1 else 0)

/-- `_calculate_completion_rate`. -/
def calculate_completion_rate (p : Pipeline) : ℚ :=
  if p.companies.isEmpty then 0
  else
    let completed := (p.companies.map (fun kv => completionStages kv.2.status)).sum
    let total_possible := p.companies.length * 5
    if 0 < total_possible then pyRound 3 ((completed : ℚ) / total_possible) else 0

def generate_pipeline_summary (p : Pipeline) : PipelineSummary :=
  let status_counts :=
    p.companies.foldl (fun acc kv => dictIncr acc kv.2.status) []
  let priority_counts :=
    p.companies.foldl
      (fun acc kv => dictIncr acc (priorityBucket kv.2.priority_score)) []
  { total_companies := p.companies.length
    status_breakdown := status_counts
    priority_breakdown := priority_counts
    completion_rate := calculate_completion_rate p
    active_opportunities :=
      (status_counts.lookup "researched").getD 0 +
        (status_counts.lookup "applied").getD 0 +
        (status_counts.lookup "interviewing").getD 0 }

/-! ### Tracker: `_generate_company_status` (all date handling here is in
try/except helpers, hence pure) -/

/-- `_get_last_activity_date`: the string-maximum of the present dates. -/
def lastActivityDate (c : Company) : String :=
  let dates :=
    (if c.research_date ≠ "" then [c.research_date] else []) ++
      c.emails_sent.filterMap
        (fun e => if e.send_date ≠ "" then some e.send_date else none) ++
      c.interviews.filterMap
        (fun iv => if iv.date ≠ "" then some iv.date else none)
  match dates with
  | [] => ""
  | d :: rest => rest.foldl (fun a b => if a < b then b else a) d

/-- `_calculate_days_since_activity` (bare `except` returns 0). -/
def calculateDaysSinceActivity (now : PyDateTime) (c : Company) : Int :=
  let last_activity := lastActivityDate c
  if last_activity = "" then 0
  else
    match parseDatetime (pyReplaceZ last_activity) with
    | none => 0
    | some dt =>
      match pySubMicro now dt with
      | .error _ => 0
      | .ok diff => tdDays diff

/-- `_determine_next_action`. -/
def determineNextAction (c : Company) : String :=
  if c.status = "researching" then "Complete company research"
  else if c.status = "researched" then "Generate application package"
  else if c.status = "applied" then "Send cold email campaign"
  else if c.status = "email_sent" then "Monitor for responses"
  else if c.status = "responded" then "Schedule interview"
  else if c.status = "interviewing" then "Follow up on interview outcome"
  else if c.status = "offered" then "Negotiate and decide"
  else if c.status = "hired" then "Complete - Success!"
  else if c.status = "rejected" then "Archive and learn from feedback"
  else "Determine status and next steps"

structure CompanyStatusInfo where
  company_name : String
  status : String
  priority_score : Int
  research_date : String
  last_activity : String
  next_action : String
  days_since_activity : Int
  emails_sent : Nat
  interviews_scheduled : Nat
  response_received : Bool
deriving DecidableEq, Repr

def companyStatusInfo (now : PyDateTime) (company_key : String)
    (c : Company) : CompanyStatusInfo :=
  { company_name := c.name.getD company_key
    status := c.status
    priority_score := c.priority_score
    research_date := c.research_date
    last_activity := lastActivityDate c
    next_action := determineNextAction c
    days_since_activity := calculateDaysSinceActivity now c
    emails_sent := c.emails_sent.length
    interviews_scheduled := c.interviews.length
    response_received := hasReceivedResponse c }

/-- Key order of `sort(key=(priority_score, -days_since_activity), reverse=True)`. -/
def companyStatusKeyLe (a b : CompanyStatusInfo) : Bool :=
  decide (b.priority_score < a.priority_score) ||
    (decide (a.priority_score = b.priority_score) &&
      decide (a.days_since_activity ≤ b.days_since_activity))

def generate_company_status (now : PyDateTime) (p : Pipeline) :
    List CompanyStatusInfo :=
  (p.companies.map (fun kv => companyStatusInfo now kv.1 kv.2)).mergeSort
    companyStatusKeyLe

/-! ### Tracker: `_generate_email_performance` -/

/-- `_calculate_days_since` (try/except, returns 0 on any failure). -/
def calculateDaysSince (now : PyDateTime) (date_string : String) : Int :=
  if date_string = "" then 0
  else
    match parseDatetime (pyReplaceZ date_string) with
    | none => 0
    | some dt =>
      match pySubMicro now dt with
      | .error _ => 0
      | .ok diff => tdDays diff

structure CampaignInfo where
  company : String
  send_date : String
  template_used : String
  response_received : Bool
  days_since_sent : Int
  follow_up_sent : Bool
deriving DecidableEq, Repr

structure TemplateStat where
  emails_sent : Nat
  responses : Nat
  response_rate : ℚ
deriving DecidableEq, Repr

structure EmailPerformance where
  campaign_details : List CampaignInfo
  template_performance : List (String × TemplateStat)
  daily_activity : List (String × Nat)
  best_performing_template : String
  total_campaigns : Nat
  pending_responses : Nat
deriving DecidableEq, Repr

/-- `template_performance[template]["sent"] += 1` (and responses). -/
def templateIncr : List (String × Nat × Nat) → String → Bool →
    List (String × Nat × Nat)
  | [], k, resp => [(k, 1, if resp then 1 else 0)]
  | (k', s, r) :: t, k, resp =>
    if k' = k then (k', s + 1, if resp then r + 1 else r) :: t
    else (k', s, r) :: templateIncr t k resp

def generate_email_performance (now : PyDateTime) (p : Pipeline) :
    EmailPerformance :=
  let emails := p.companies.flatMap (fun kv => kv.2.emails_sent.map (kv.2, ·))
  let email_campaigns := emails.map
    (fun ce =>
      ({ company := ce.1.name.getD "Unknown"
         send_date := ce.2.send_date
         template_used := ce.2.template
         response_received := ce.2.response_received
         days_since_sent := calculateDaysSince now ce.2.send_date
         follow_up_sent := ce.2.follow_up_sent } : CampaignInfo))
  let template_counts := emails.foldl
    (fun acc ce => templateIncr acc ce.2.template ce.2.response_received) []
  let template_stats := template_counts.map
    (fun tc =>
      (tc.1,
       ({ emails_sent := tc.2.1
          responses := tc.2.2
          response_rate :=
            if 0 < tc.2.1 then pyRound 3 ((tc.2.2 : ℚ) / tc.2.1) else 0 } :
         TemplateStat)))
  let daily_activity := emails.foldl
    (fun acc ce =>
      let send_date := strTake ce.2.send_date 10
      if send_date ≠ "" then dictIncr acc send_date else acc) []
  { campaign_details := email_campaigns
    template_performance := template_stats
    daily_activity := daily_activity
    best_performing_template :=
      match template_stats with
      | [] => "None"
      | t0 :: rest =>
        (rest.foldl
          (fun best t =>
            if best.2.response_rate < t.2.response_rate then t else best) t0).1
    total_campaigns := email_campaigns.length
    pending_responses :=
      (email_campaigns.filter
        (fun ci => !ci.response_received && ci.days_since_sent ≤ 14)).length }

/-! ### Tracker: `_generate_interview_tracking` -/

structure InterviewInfo where
  company : String
  date : String
  ty : String
  stage : String
  interviewer : String
  outcome : String
  feedback : String
  next_steps : String
deriving DecidableEq, Repr

structure InterviewTracking where
  scheduled_interviews : Nat
  interview_details : List InterviewInfo
  stage_breakdown : List (String × Nat)
  outcome_breakdown : List (String × Nat)
  upcoming_interviews : List InterviewInfo
  pending_feedback : Nat
  success_rate : ℚ
deriving DecidableEq, Repr

/-- `_is_upcoming_interview` (try/except, False on any failure). -/
def isUpcomingInterview (now : PyDateTime) (date_string : String) : Bool :=
  if date_string = "" then false
  else
    match parseDatetime (pyReplaceZ date_string) with
    | none => false
    | some dt =>
      match pySubMicro dt now with
      | .error _ => false
      | .ok diff =>
        let days_until := tdDays diff
        decide (0 ≤ days_until ∧ days_until ≤ 14)

def generate_interview_tracking (now : PyDateTime) (p : Pipeline) :
    InterviewTracking :=
  let pairs := p.companies.flatMap (fun kv => kv.2.interviews.map (kv.2, ·))
  let interviews := pairs.map
    (fun ci =>
      ({ company := ci.1.name.getD "Unknown"
         date := ci.2.date
         ty := ci.2.ty
         stage := ci.2.stage.getD "unknown"
         interviewer := ci.2.interviewer.getD ""
         outcome := ci.2.outcome.getD "pending"
         feedback := ci.2.feedback
         next_steps := ci.2.next_steps } : InterviewInfo))
  let interview_stages := pairs.foldl
    (fun acc ci => dictIncr acc (ci.2.stage.getD "unknown")) []
  let outcomes := pairs.foldl
    (fun acc ci => dictIncr acc (ci.2.outcome.getD "pending")) []
  { scheduled_interviews := interviews.length
    interview_details := interviews
    stage_breakdown := interview_stages
    outcome_breakdown := outcomes
    upcoming_interviews :=
      interviews.filter (fun i => isUpcomingInterview now i.date)
    pending_feedback := (interviews.filter (fun i => i.outcome = "pending")).length
    success_rate :=
      if interviews.isEmpty then 0
      else
        pyRound 3
          (((outcomes.lookup "advanced").getD 0 : ℚ) / interviews.length) }

/-! ### Tracker: `_generate_recommendations`

The `description` strings interpolate float formatting and are pure display
text (presentation is out of the engine's data model); the embedded record
keeps the decision fields and the constant action lists. -/

structure Recommendation where
  category : String
  priority : String
  title : String
  actions : List String
deriving DecidableEq, Repr

def generate_recommendations (now : PyDateTime) (p : Pipeline) :
    Except String (List Recommendation) := do
  let success_metrics := generate_success_metrics p
  let email_performance := generate_email_performance now p
  let email_response_rate := success_metrics.email_metrics.response_rate
  let target_response_rate := success_metrics.email_metrics.target_response_rate
  let r1 :=
    if email_response_rate < target_response_rate * (8 / 10) then
      [({ category := "email_optimization", priority := "high"
          title := "Improve Email Response Rate"
          actions :=
            ["Review email templates for clarity and personalization",
             "Ensure emails are under 200 words with clear ask",
             "Focus on 1st/2nd degree LinkedIn connections",
             "Improve company research depth for better personalization"] } :
        Recommendation)]
    else []
  let weekly_progress ← generate_weekly_progress now p
  let r2 :=
    if !weekly_progress.on_track then
      [({ category := "volume_optimization", priority := "medium"
          title := "Increase Application Volume"
          actions :=
            ["Research 2-3 additional companies this week",
             "Focus on companies with higher priority scores",
             "Use automation system to reduce time per application"] } :
        Recommendation)]
    else []
  let pipeline_summary := generate_pipeline_summary p
  let researched_count :=
    (pipeline_summary.status_breakdown.lookup "researched").getD 0
  let r3 :=
    if 3 < researched_count then
      [({ category := "pipeline_efficiency", priority := "medium"
          title := "Convert Research to Applications"
          actions :=
            ["Generate application packages for researched companies",
             "Prioritize companies with scores >= 32",
             "Set aside 2 hours for application generation"] } :
        Recommendation)]
    else []
  let r4 :=
    if ¬email_performance.template_performance.isEmpty then
      let best := email_performance.best_performing_template
      [({ category := "template_optimization", priority := "low"
          title := "Optimize Email Templates"
          actions :=
            ["Use '" ++ best ++ "' template for similar company types",
             "A/B test variations of high-performing templates",
             "Archive or improve low-performing templates"] } :
        Recommendation)]
    else []
  pure (r1 ++ r2 ++ r3 ++ r4)

/-! ### Tracker: `generate_dashboard`

The dict literal's values are computed in source order, so the first raising
section (`next_actions`, then `weekly_progress`, then `recommendations`)
aborts the dashboard.  `_save_dashboard` writes a markdown file (a filesystem
effect outside the record store) and is not part of the data model.  The
`_St` variant threads the tracker's store state explicitly: no generator
method ever assigns `self.pipeline_data`, so each step passes it through. -/

structure Dashboard where
  generated_at : String
  pipeline_summary : PipelineSummary
  company_status : List CompanyStatusInfo
  success_metrics : SuccessMetrics
  email_performance : EmailPerformance
  interview_tracking : InterviewTracking
  next_actions : List ActionItem
  weekly_progress : WeeklyProgress
  recommendations : List Recommendation
deriving DecidableEq, Repr

def generate_dashboard_st (now : PyDateTime) (st : Pipeline) :
    Except String (Dashboard × Pipeline) := do
  let (pipeline_summary, st) := (generate_pipeline_summary st, st)
  let (company_status, st) := (generate_company_status now st, st)
  let (success_metrics, st) := (generate_success_metrics st, st)
  let (email_performance, st) := (generate_email_performance now st, st)
  let (interview_tracking, st) := (generate_interview_tracking now st, st)
  let next_actions ← generate_next_actions now st
  let weekly_progress ← generate_weekly_progress now st
  let recommendations ← generate_recommendations now st
  pure
    ({ generated_at := isoformat now
       pipeline_summary := pipeline_summary
       company_status := company_status
       success_metrics := success_metrics
       email_performance := email_performance
       interview_tracking := interview_tracking
       next_actions := next_actions
       weekly_progress := weekly_progress
       recommendations := recommendations }, st)

def generate_dashboard (now : PyDateTime) (p : Pipeline) :
    Except String Dashboard :=
  (generate_dashboard_st now p).map Prod.fst

/-! ### Application generator: `_score_case_story_relevance`

A case story is the dict shape produced by `_load_case_stories` (string fields
plus a `skills` list).  The scorer matches keywords against
`json.dumps(story).lower()`, so the *serialized* story — keys, quotes and all —
is the haystack; the model reproduces `json.dumps` with its default separators
and `ensure_ascii` escaping.  Scores add 1.0 per matched query keyword, 2.0 per
matched role keyword, and 1.5 when the `results` field contains a digit; all
addends are halves, so exact rationals model the float sum. -/

structure CaseStory where
  title : String
  situation : String
  task : String
  action : String
  results : String
  skills : List String
  industry : String
deriving DecidableEq, Repr

def hexDigitChar (n : Nat) : Char :=
  if n < 10 then Char.ofNat (48 + n) else Char.ofNat (87 + (n - 10))

def hex4 (n : Nat) : String :=
  String.mk [hexDigitChar (n / 4096 % 16), hexDigitChar (n / 256 % 16),
             hexDigitChar (n / 16 % 16), hexDigitChar (n % 16)]

/-- `json.dumps` escaping of one character (`ensure_ascii=True`: everything
outside `0x20`–`0x7e` is escaped). -/
def jsonEscapeChar (c : Char) : String :=
  if c = '"' then "\\\""
  else if c = '\\' then "\\\\"
  else if c = '\n' then "\\n"
  else if c = '\t' then "\\t"
  else if c = '\r' then "\\r"
  else if c = Char.ofNat 8 then "\\b"
  else if c = Char.ofNat 12 then "\\f"
  else if c.toNat < 32 then "\\u" ++ hex4 c.toNat
  else if c.toNat ≤ 126 then String.mk [c]
  else if c.toNat < 65536 then "\\u" ++ hex4 c.toNat
  else
    let v := c.toNat - 65536
    "\\u" ++ hex4 (55296 + v / 1024) ++ "\\u" ++ hex4 (56320 + v % 1024)

def jsonStr (s : String) : String :=
  "\"" ++ String.join (s.data.map jsonEscapeChar) ++ "\""

def jsonStrList (l : List String) : String :=
  "[" ++ String.intercalate ", " (l.map jsonStr) ++ "]"

/-- `json.dumps(story)` with the insertion-ordered keys of
`_load_case_stories`. -/
def jsonDumpsStory (st : CaseStory) : String :=
  "\x7b" ++
    jsonStr "title" ++ ": " ++ jsonStr st.title ++ ", " ++
    jsonStr "situation" ++ ": " ++ jsonStr st.situation ++ ", " ++
    jsonStr "task" ++ ": " ++ jsonStr st.task ++ ", " ++
    jsonStr "action" ++ ": " ++ jsonStr st.action ++ ", " ++
    jsonStr "results" ++ ": " ++ jsonStr st.results ++ ", " ++
    jsonStr "skills" ++ ": " ++ jsonStrList st.skills ++ ", " ++
    jsonStr "industry" ++ ": " ++ jsonStr st.industry ++
    "\x7d"

/-- `_get_role_specific_keywords`. -/
def get_role_specific_keywords (role_title : String) : List String :=
  let role_lower := pyLower role_title
  if strContains role_lower "growth" then
    ["acquisition", "conversion", "retention", "engagement", "funnel", "a/b test"]
  else if strContains role_lower "product" then
    ["roadmap", "feature", "user story", "sprint", "stakeholder", "metrics"]
  else if strContains role_lower "strategy" then
    ["strategic", "planning", "analysis", "framework", "competitive"]
  else
    ["management", "leadership", "execution", "results", "improvement"]

/-- `_score_case_story_relevance`; `keywords` is `job_analysis["keywords"]` as
an insertion-ordered dict of category → keyword list. -/
def score_case_story_relevance (story : CaseStory) (role_title : String)
    (keywords : List (String × List String)) : ℚ :=
  let story_text := pyLower (jsonDumpsStory story)
  let keyword_score : ℚ :=
    (keywords.map
      (fun cat =>
        ((cat.2.filter (fun kw => strContains story_text kw)).length : ℚ))).sum
  let role_score : ℚ :=
    2 * ((get_role_specific_keywords role_title).filter
      (fun kw => strContains story_text kw)).length
  let quantified_bonus : ℚ :=
    if story.results.data.any Char.isDigit then 3 / 2 else 0
  keyword_score + role_score + quantified_bonus

/-- All digits removed from a string (the claim's "otherwise-identical story
with all digits removed from its results text"). -/
def removeDigits (s : String) : String :=
  String.mk (s.data.filter (fun c => !c.isDigit))

def stripResultsDigits (story : CaseStory) : CaseStory :=
  { story with results := removeDigits story.results }

/-! ## Supporting lemmas -/

theorem lookup_dictSet_self {β : Type} (l : List (String × β)) (k : String)
    (v : β) : (dictSet l k v).lookup k = some v := by
  induction l with
  | nil => simp [dictSet, List.lookup]
  | cons hd t ih =>
    by_cases h : hd.1 = k
    · simp [dictSet, h, List.lookup]
    · have hb : (k == hd.1) = false := by simp [Ne.symm h]
      simp [dictSet, h, List.lookup, hb, ih]

theorem dictSet_dictSet {β : Type} (l : List (String × β)) (k : String)
    (v w : β) : dictSet (dictSet l k v) k w = dictSet l k w := by
  induction l with
  | nil => simp [dictSet]
  | cons hd t ih =>
    by_cases h : hd.1 = k
    · simp [dictSet, h]
    · simp [dictSet, h, ih]

theorem statusAdjust_setField_fix (c : Company) (f : FieldUpdate) :
    statusAdjust f (setField (statusAdjust f (setField c f)) f) =
      statusAdjust f (setField c f) := by
  cases f with
  | application_generated b => cases b <;> rfl
  | emails_sent es => cases es <;> rfl
  | extra k v => simp [setField, statusAdjust, dictSet_dictSet]
  | _ => rfl

/-! ## The claims -/

/-- `spec_status_index`: the §4.3 total ordering of the spec
(researching < researched < applied < outreach_sent < responded <
interviewing < offered < hired); side-branch / unknown statuses sit at 0. -/
def spec_status_index (s : String) : Nat :=
  if s = "researching" then 0
  else if s = "researched" then 1
  else if s = "applied" then 2
  else if s = "outreach_sent" then 3
  else if s = "responded" then 4
  else if s = "interviewing" then 5
  else if s = "offered" then 6
  else if s = "hired" then 7
  else 0

def c1Company : Company := { name := some "Acme", status := "interviewing" }

def c1Pipeline : Pipeline := { companies := [("acme", c1Company)] }

/-- C1 (counterexample): applying `application_generated = True` through
`_update_pipeline_status` to a company whose status is `interviewing`
(later than `applied`) rewrites its status to `applied` — a backward move in
the §4.3 ordering with no `force_refresh` involved, contradicting the claimed
monotonicity. -/
theorem c1_counterexample :
    (((update_pipeline_status c1Pipeline "Acme"
        (.application_generated true)).companies.lookup "acme").map
      Company.status) = some "applied" ∧
    spec_status_index "applied" < spec_status_index "interviewing" := by
  constructor
  · rfl
  · decide

/-- C1 (amended): `_update_pipeline_status` rewrites `status` to `'applied'`
unconditionally when setting a truthy `application_generated`, so the status
regresses whenever it was later than `applied`; monotonicity holds exactly
when the record's current status is `applied` or earlier, which this theorem
states: under that hypothesis the §4.3 index never decreases. -/
theorem c1_amended_monotone_below_applied (p : Pipeline) (nm : String)
    (b : Bool) (c c' : Company)
    (hc : p.companies.lookup (pyLower nm) = some c)
    (hle : spec_status_index c.status ≤ spec_status_index "applied")
    (hc' : (update_pipeline_status p nm
        (.application_generated b)).companies.lookup (pyLower nm) = some c') :
    spec_status_index c.status ≤ spec_status_index c'.status := by
  unfold update_pipeline_status at hc'
  rw [hc] at hc'
  simp only [lookup_dictSet_self] at hc'
  cases hc'
  cases b
  · simp [setField, statusAdjust]
  · simpa [setField, statusAdjust] using hle

def c1wCompany : Company := { name := some "Acme", status := "researched" }

def c1wPipeline : Pipeline := { companies := [("acme", c1wCompany)] }

def c1wAfter : Company :=
  { name := some "Acme", status := "applied", application_generated := true }

/-- C1 amended-claim witness at a concrete record with status `researched`. -/
theorem c1_amended_witness :
    spec_status_index c1wCompany.status ≤ spec_status_index c1wAfter.status :=
  c1_amended_monotone_below_applied c1wPipeline "Acme" true c1wCompany c1wAfter
    (by rfl) (by decide) (by rfl)

def c3Update : FieldUpdate := .application_generated true

/-- C3 (counterexample): upserting a field for a company absent from the
store does *not* create the record — on the empty pipeline the mutation is a
no-op and the key is still absent afterwards, contradicting the claimed
create-if-absent behavior. -/
theorem c3_counterexample :
    (update_pipeline_status emptyPipeline "Acme" c3Update).companies.lookup
      "acme" = none ∧
    update_pipeline_status emptyPipeline "Acme" c3Update = emptyPipeline := by
  exact ⟨rfl, rfl⟩

/-- C3 (amended): `_update_pipeline_status` only mutates existing records;
when the normalized key (`company_name.lower()`) is absent from the companies
mapping, the pipeline is returned entirely unchanged (no record is created). -/
theorem c3_amended_absent_is_noop (p : Pipeline) (nm : String)
    (f : FieldUpdate) (h : p.companies.lookup (pyLower nm) = none) :
    update_pipeline_status p nm f = p := by
  unfold update_pipeline_status
  rw [h]

/-- C3 amended-claim witness on a concrete one-company pipeline missing the
targeted key. -/
theorem c3_amended_witness :
    update_pipeline_status c1wPipeline "Beta" (.status "applied") =
      c1wPipeline :=
  c3_amended_absent_is_noop c1wPipeline "Beta" (.status "applied") (by rfl)

/-- C9: the sanctioned mutation is idempotent — applying the same
`_update_pipeline_status(company, field, value)` twice yields the same
pipeline as applying it once (both when the key is absent, a double no-op,
and when present, since the field assignment and the status rewrite are both
idempotent). -/
theorem c9_upsert_idempotent (p : Pipeline) (nm : String) (f : FieldUpdate) :
    update_pipeline_status (update_pipeline_status p nm f) nm f =
      update_pipeline_status p nm f := by
  unfold update_pipeline_status
  cases h : p.companies.lookup (pyLower nm) with
  | none => simp [h]
  | some c =>
    simp only [h, lookup_dictSet_self]
    rw [statusAdjust_setField_fix, dictSet_dictSet]

/-- C4: a research call whose four sub-scores total strictly below
`min_priority_score` (and which is not short-circuited by the
already-researched guard) stores the company with status `disqualified`,
leaves research unmarked and the deep-research merge skipped (no AI fields,
no network data, stats untouched), and — second half — any record that is
`disqualified` with no emails and no interviews contributes no next action at
all (in particular none of high or medium priority). -/
theorem c4_below_threshold_disqualifies (cfg : QualityGates)
    (now : PyDateTime) (inter : QualScores) (ai : List (String × String))
    (p : Pipeline) (nm : String) (role : Option String) (force : Bool)
    (scores : Option ProvidedScores)
    (hguard : ∀ ex, (if force then none
        else p.companies.lookup (spaceToUnderscore (pyLower nm))) = some ex →
      ex.research_completed = false)
    (hscore : qualTotal (qualBreakdown inter scores) < cfg.min_priority_score) :
    ((research_company cfg now inter ai p nm role force scores).2.status =
        "disqualified" ∧
     (research_company cfg now inter ai p nm role force
        scores).2.research_completed = false ∧
     (research_company cfg now inter ai p nm role force scores).2.emails_sent =
        [] ∧
     (research_company cfg now inter ai p nm role force scores).2.interviews =
        [] ∧
     (research_company cfg now inter ai p nm role force scores).2.extra = [] ∧
     (research_company cfg now inter ai p nm role force
         scores).2.network_opportunities = none ∧
     (research_company cfg now inter ai p nm role force
         scores).1.companies.lookup (spaceToUnderscore (pyLower nm)) =
       some (research_company cfg now inter ai p nm role force scores).2 ∧
     (research_company cfg now inter ai p nm role force scores).1.stats =
        p.stats) ∧
    (∀ (now2 : PyDateTime) (k : String) (c : Company),
      c.status = "disqualified" → c.emails_sent = [] → c.interviews = [] →
      companyActions now2 k c = .ok []) := by
  constructor
  · have hbody :
        research_company cfg now inter ai p nm role force scores =
          research_company_body cfg now inter ai p
            (spaceToUnderscore (pyLower nm)) nm role scores := by
      unfold research_company
      cases hm : (if force then none
          else p.companies.lookup (spaceToUnderscore (pyLower nm))) with
      | none => rfl
      | some ex => simp [hguard ex hm]
    rw [hbody]
    unfold research_company_body
    rw [if_pos hscore]
    refine ⟨rfl, rfl, rfl, rfl, rfl, rfl, ?_, rfl⟩
    exact lookup_dictSet_self ..
  · intro now2 k c hst hem hiv
    unfold companyActions
    rw [hem, hiv]
    simp [hst, emailFollowupActions, interviewFollowupActions]

def c4wScores : ProvidedScores :=
  { role_appeal := some 6, company_fit := some 6, growth_potential := some 6,
    likelihood := some 7 }

def c4wNow : PyDateTime := ⟨1760227200000000, none⟩

/-- C4 witness: a concrete research call scoring 25/40 against the default
threshold 28 on the empty pipeline; both hypotheses discharge by computation
and the record lands as `disqualified` with no derivable actions. -/
theorem c4_witness :
    ((research_company {} c4wNow ⟨8, 8, 8, 8⟩ [] emptyPipeline "New Co"
        (some "PM") false (some c4wScores)).2.status = "disqualified" ∧
     (research_company {} c4wNow ⟨8, 8, 8, 8⟩ [] emptyPipeline "New Co"
        (some "PM") false (some c4wScores)).2.research_completed = false ∧
     (research_company {} c4wNow ⟨8, 8, 8, 8⟩ [] emptyPipeline "New Co"
        (some "PM") false (some c4wScores)).2.emails_sent = [] ∧
     (research_company {} c4wNow ⟨8, 8, 8, 8⟩ [] emptyPipeline "New Co"
        (some "PM") false (some c4wScores)).2.interviews = [] ∧
     (research_company {} c4wNow ⟨8, 8, 8, 8⟩ [] emptyPipeline "New Co"
        (some "PM") false (some c4wScores)).2.extra = [] ∧
     (research_company {} c4wNow ⟨8, 8, 8, 8⟩ [] emptyPipeline "New Co"
        (some "PM") false (some c4wScores)).2.network_opportunities = none ∧
     (research_company {} c4wNow ⟨8, 8, 8, 8⟩ [] emptyPipeline "New Co"
        (some "PM") false (some c4wScores)).1.companies.lookup
        (spaceToUnderscore (pyLower "New Co")) =
       some (research_company {} c4wNow ⟨8, 8, 8, 8⟩ [] emptyPipeline "New Co"
        (some "PM") false (some c4wScores)).2 ∧
     (research_company {} c4wNow ⟨8, 8, 8, 8⟩ [] emptyPipeline "New Co"
        (some "PM") false (some c4wScores)).1.stats = emptyPipeline.stats) ∧
    (∀ (now2 : PyDateTime) (k : String) (c : Company),
      c.status = "disqualified" → c.emails_sent = [] → c.interviews = [] →
      companyActions now2 k c = .ok []) :=
  c4_below_threshold_disqualifies {} c4wNow ⟨8, 8, 8, 8⟩ [] emptyPipeline
    "New Co" (some "PM") false (some c4wScores)
    (by intro ex hex; simp [emptyPipeline, List.lookup] at hex) (by decide)

/-- The counting loop computes sums and `countP`s of the company list. -/
theorem metricCounts_foldl (l : List (String × Company)) (acc : MetricCounts) :
    l.foldl metricStep acc =
      ⟨acc.total_emails + (l.map (fun kv => kv.2.emails_sent.length)).sum,
       acc.responses_received + l.countP (fun kv => hasReceivedResponse kv.2),
       acc.interviews_scheduled +
         l.countP (fun kv => !kv.2.interviews.isEmpty),
       acc.total_applications +
         l.countP (fun kv => decide (kv.2.status = "applied")),
       acc.offers_received + l.countP (fun kv => kv.2.offer_received)⟩ := by
  induction l generalizing acc with
  | nil => simp [List.countP, List.countP.go]
  | cons hd t ih =>
    rw [List.foldl_cons, ih]
    simp only [metricStep, List.countP_cons, List.map_cons, List.sum_cons,
      MetricCounts.mk.injEq, decide_eq_true_eq]
    refine ⟨by omega, by omega, ?_, by omega, by omega⟩
    cases h : hd.2.interviews.isEmpty
    · simp [h]; omega
    · simp [h]

/-- pyRound of 0 is 0 at every precision. -/
theorem pyRound_zero (n : Nat) : pyRound n 0 = 0 := by
  norm_num [pyRound, roundHalfEven]

/-- C6: the three rates have an explicit divide-by-zero guard — with no
emails sent the response rate is 0, with no company at status `applied` the
interview conversion is 0, and with no company having interviews the offer
conversion is 0; none of them is a division error. -/
theorem c6_zero_division_safety (p : Pipeline) :
    ((metricCounts p).total_emails = 0 →
      (generate_success_metrics p).email_metrics.response_rate = 0) ∧
    ((metricCounts p).total_applications = 0 →
      (generate_success_metrics
        p).application_metrics.interview_conversion_rate = 0) ∧
    ((metricCounts p).interviews_scheduled = 0 →
      (generate_success_metrics p).offer_metrics.offer_conversion_rate = 0) := by
  refine ⟨fun h => ?_, fun h => ?_, fun h => ?_⟩ <;>
    simp [generate_success_metrics, h, pyRound_zero]

/-- C6 witness: the empty pipeline has all three denominators 0 and all
three rates equal to 0. -/
theorem c6_witness :
    (generate_success_metrics emptyPipeline).email_metrics.response_rate = 0 ∧
    (generate_success_metrics
      emptyPipeline).application_metrics.interview_conversion_rate = 0 ∧
    (generate_success_metrics
      emptyPipeline).offer_metrics.offer_conversion_rate = 0 :=
  ⟨(c6_zero_division_safety emptyPipeline).1 rfl,
   (c6_zero_division_safety emptyPipeline).2.1 rfl,
   (c6_zero_division_safety emptyPipeline).2.2 rfl⟩

def countWithInterviews (p : Pipeline) : Nat :=
  p.companies.countP (fun kv => !kv.2.interviews.isEmpty)

def countStatusApplied (p : Pipeline) : Nat :=
  p.companies.countP (fun kv => decide (kv.2.status = "applied"))

/-- `applied-or-later` in the §4.3 ordering, as the spec's formula words it. -/
def appliedOrLater (s : String) : Bool :=
  ["applied", "outreach_sent", "responded", "interviewing", "offered",
    "hired"].contains s

/-- The spec's §4.5 formula, written from its words: companies with at least
one interview over companies at status applied-or-later, with the stated
divide-by-zero-returns-0 policy.  Used only as the comparison point for C7. -/
def spec_interview_conversion_rate (p : Pipeline) : ℚ :=
  if 0 < p.companies.countP (fun kv => appliedOrLater kv.2.status) then
    (countWithInterviews p : ℚ) /
      p.companies.countP (fun kv => appliedOrLater kv.2.status)
  else 0

def c7Company : Company :=
  { name := some "Acme", status := "interviewing"
    interviews := [{ date := "2025-10-01T09:00:00" }] }

def c7Pipeline : Pipeline := { companies := [("acme", c7Company)] }

/-- C7 (counterexample): a pipeline whose single company is `interviewing`
with one interview.  The spec formula gives 1/1 = 1, but the code divides by
the number of companies at status exactly `applied` (here 0), so the computed
rate is 0 — the denominators differ. -/
theorem c7_counterexample :
    (generate_success_metrics
        c7Pipeline).application_metrics.interview_conversion_rate ≠
      spec_interview_conversion_rate c7Pipeline := by
  have hL : (generate_success_metrics
      c7Pipeline).application_metrics.interview_conversion_rate = 0 := by
    simp [generate_success_metrics, metricCounts, metricStep, c7Pipeline,
      c7Company, pyRound_zero]
  have hR : spec_interview_conversion_rate c7Pipeline = 1 := by
    simp [spec_interview_conversion_rate, countWithInterviews, c7Pipeline,
      c7Company, appliedOrLater, List.countP, List.countP.go]
  rw [hL, hR]
  norm_num

/-- C7 (amended): the computed `interview_conversion_rate` equals the number
of companies with at least one interview divided by the number of companies
whose status is *exactly* `applied` (not applied-or-later), with the 0
guard, rounded to 3 digits. -/
theorem c7_amended_denominator_is_exactly_applied (p : Pipeline) :
    (generate_success_metrics
        p).application_metrics.interview_conversion_rate =
      pyRound 3
        (if 0 < countStatusApplied p then
          (countWithInterviews p : ℚ) / countStatusApplied p
        else 0) := by
  unfold generate_success_metrics metricCounts
  rw [metricCounts_foldl p.companies ⟨0, 0, 0, 0, 0⟩]
  simp only [countWithInterviews, countStatusApplied, Nat.zero_add]

theorem actionKeyLe_total (a b : ActionItem) :
    actionKeyLe a b || actionKeyLe b a := by
  unfold actionKeyLe
  rcases Nat.lt_trichotomy (priorityOrder a.priority)
      (priorityOrder b.priority) with h | h | h
  · simp [h]
  · rcases le_total b.due_date a.due_date with hd | hd <;> simp [h, hd]
  · simp [h]

theorem actionKeyLe_trans (a b c : ActionItem) :
    actionKeyLe a b → actionKeyLe b c → actionKeyLe a c := by
  unfold actionKeyLe
  intro h1 h2
  simp only [Bool.or_eq_true, Bool.and_eq_true, decide_eq_true_eq] at *
  rcases h1 with h1 | ⟨h1e, h1d⟩ <;> rcases h2 with h2 | ⟨h2e, h2d⟩
  · exact Or.inl (h2.trans h1)
  · exact Or.inl (h2e ▸ h1)
  · exact Or.inl (h1e ▸ h2)
  · exact Or.inr ⟨h1e.trans h2e, h2d.trans h1d⟩

/-- The partial key equality used in the stability statement: same priority
label and same due date. -/
def sameActionKey (pr dd : String) (a : ActionItem) : Bool :=
  a.priority == pr && a.due_date == dd

theorem actionKeyLe_of_sameActionKey (pr dd : String) (a b : ActionItem)
    (ha : sameActionKey pr dd a) (hb : sameActionKey pr dd b) :
    actionKeyLe a b := by
  simp only [sameActionKey, Bool.and_eq_true, beq_iff_eq] at ha hb
  unfold actionKeyLe
  simp [ha.1, ha.2, hb.1, hb.2]

/-- C5: whenever `_generate_next_actions` succeeds, its output is exactly the
top 20 of the stable descending sort of the collected actions; it is sorted
by priority rank descending, then (within equal rank) by `due_date`
descending in the string order used by the code (valid ISO-date order per
§4.4); it has at most 20 items; and for any fixed (priority, due_date) pair
the surviving items keep their original company-iteration order (they form a
sublist of the collected order) — Python's `list.sort` is stable also under
`reverse=True`. -/
theorem c5_next_actions_sorted_bounded_stable (now : PyDateTime)
    (p : Pipeline) :
    match collectNextActions now p.companies, generate_next_actions now p with
    | .ok raw, .ok acts =>
        acts = (raw.mergeSort actionKeyLe).take 20 ∧
        acts.Pairwise (fun a b => actionKeyLe a b) ∧
        acts.length ≤ 20 ∧
        ∀ pr dd, List.Sublist (acts.filter (sameActionKey pr dd))
          (raw.filter (sameActionKey pr dd))
    | _, _ => True := by
  cases h : collectNextActions now p.companies with
  | error e => simp [generate_next_actions, h]
  | ok raw =>
    have hg : generate_next_actions now p =
        .ok ((raw.mergeSort actionKeyLe).take 20) := by
      simp [generate_next_actions, h, Except.map]
    rw [hg]
    refine ⟨rfl, ?_, List.length_take_le .., ?_⟩
    · exact ((List.sorted_mergeSort actionKeyLe_trans actionKeyLe_total
        raw).sublist (List.take_sublist ..))
    · intro pr dd
      have hq : (raw.filter (sameActionKey pr dd)).Pairwise
          (fun a b => actionKeyLe a b) := by
        refine List.pairwise_of_forall_mem_list ?_
        intro a ha b hb
        exact actionKeyLe_of_sameActionKey pr dd a b
          (List.of_mem_filter ha) (List.of_mem_filter hb)
      have hsub : List.Sublist (raw.filter (sameActionKey pr dd))
          (raw.mergeSort actionKeyLe) :=
        List.sublist_mergeSort actionKeyLe_trans actionKeyLe_total hq
          (List.filter_sublist raw)
      have heq : (raw.mergeSort actionKeyLe).filter (sameActionKey pr dd) =
          raw.filter (sameActionKey pr dd) := by
        have h1 : List.Sublist (raw.filter (sameActionKey pr dd))
            ((raw.mergeSort actionKeyLe).filter (sameActionKey pr dd)) := by
          simpa [List.filter_filter] using hsub.filter (sameActionKey pr dd)
        have h2 : ((raw.mergeSort actionKeyLe).filter
            (sameActionKey pr dd)).length =
            (raw.filter (sameActionKey pr dd)).length :=
          ((List.mergeSort_perm raw actionKeyLe).filter
            (sameActionKey pr dd)).length_eq
        exact (h1.eq_of_length h2.symm).symm
      have h3 : List.Sublist (((raw.mergeSort actionKeyLe).take 20).filter
          (sameActionKey pr dd))
          ((raw.mergeSort actionKeyLe).filter (sameActionKey pr dd)) :=
        (List.take_sublist ..).filter _
      rw [heq] at h3
      exact h3

theorem exceptBind_error {ε α β : Type} (e : ε) (f : α → Except ε β) :
    (Except.error e : Except ε α) >>= f = Except.error e := rfl

theorem exceptBind_ok {ε α β : Type} (a : α) (f : α → Except ε β) :
    (Except.ok a : Except ε α) >>= f = f a := rfl

theorem exceptMap_error {ε α β : Type} (e : ε) (f : α → β) :
    f <$> (Except.error e : Except ε α) = Except.error e := rfl

theorem exceptMap_ok {ε α β : Type} (a : α) (f : α → β) :
    f <$> (Except.ok a : Except ε α) = Except.ok (f a) := rfl

/-- C2 (amended): dashboard generation does *not* degrade gracefully on bad
timestamps — `_generate_next_actions` parses `send_date` with no try/except,
so for a pipeline whose (single) company has a single EmailAttempt whose
non-empty `send_date` is unparsable and unanswered, the dashboard aborts with
the parse error instead of returning a report.  (Only the helper computations
such as `_calculate_days_since` treat bad timestamps as zero elapsed time;
`_generate_next_actions` and `_generate_weekly_progress` raise.) -/
theorem c2_amended_dashboard_raises_on_bad_send_date (now : PyDateTime)
    (p : Pipeline) (k : String) (c : Company) (e : EmailRec)
    (hp : p.companies = [(k, c)]) (hc : c.emails_sent = [e])
    (hne : e.send_date ≠ "") (hresp : e.response_received = false)
    (hparse : parseDatetime (pyReplaceZ e.send_date) = none) :
    generate_dashboard now p =
      .error ("Invalid isoformat string: " ++ e.send_date) := by
  have hemail : emailFollowupActions now (c.name.getD k) c.emails_sent =
      .error ("Invalid isoformat string: " ++ e.send_date) := by
    rw [hc]
    unfold emailFollowupActions
    simp [hne, hresp, hparse, exceptBind_error]
  have hca : companyActions now k c =
      .error ("Invalid isoformat string: " ++ e.send_date) := by
    simp [companyActions, hemail, exceptBind_error]
  have hcoll : collectNextActions now p.companies =
      .error ("Invalid isoformat string: " ++ e.send_date) := by
    rw [hp]
    simp [collectNextActions, hca, exceptBind_error]
  have hna : generate_next_actions now p =
      .error ("Invalid isoformat string: " ++ e.send_date) := by
    simp [generate_next_actions, hcoll, Except.map]
  simp [generate_dashboard, generate_dashboard_st, hna, exceptBind_error,
    exceptMap_error, Except.map]

def c2Company : Company :=
  { name := some "Acme", emails_sent := [{ send_date := "not-a-date" }] }

def c2Pipeline : Pipeline := { companies := [("acme", c2Company)] }

def c2Now : PyDateTime := ⟨1760227200000000, none⟩

/-- C2 (counterexample): on a concrete pipeline whose one EmailAttempt has
the unparsable send date `"not-a-date"`, the dashboard raises instead of
returning a complete report. -/
theorem c2_counterexample :
    generate_dashboard c2Now c2Pipeline =
      .error "Invalid isoformat string: not-a-date" := by rfl

def c2wCompany : Company :=
  { name := some "Beta", emails_sent := [{ send_date := "sometime soon" }] }

def c2wPipeline : Pipeline := { companies := [("beta", c2wCompany)] }

/-- C2 amended-claim witness at a second concrete bad-timestamp pipeline. -/
theorem c2_amended_witness :
    generate_dashboard c2Now c2wPipeline =
      .error ("Invalid isoformat string: " ++ "sometime soon") :=
  c2_amended_dashboard_raises_on_bad_send_date c2Now c2wPipeline "beta"
    c2wCompany { send_date := "sometime soon" } rfl rfl (by decide) rfl
    (by rfl)

/-- C10: dashboard generation is a pure read of the record store — whenever
it succeeds, the threaded store state it returns has the same companies
mapping and the same stats as the input pipeline (no generator or aggregator
mutates `self.pipeline_data`). -/
theorem c10_dashboard_preserves_store (now : PyDateTime) (p : Pipeline) :
    match generate_dashboard_st now p with
    | .ok dp => dp.2.companies = p.companies ∧ dp.2.stats = p.stats
    | .error _ => True := by
  unfold generate_dashboard_st
  cases h1 : generate_next_actions now p with
  | error e => simp [h1, exceptBind_error]
  | ok na =>
    cases h2 : generate_weekly_progress now p with
    | error e => simp [h1, h2, exceptBind_error, exceptBind_ok]
    | ok wp =>
      cases h3 : generate_recommendations now p with
      | error e =>
        simp [h1, h2, h3, exceptBind_error, exceptBind_ok, exceptMap_error]
      | ok rc =>
        simp [h1, h2, h3, exceptBind_ok, exceptMap_ok]

theorem stripResults_no_digit (story : CaseStory) :
    (stripResultsDigits story).results.data.any Char.isDigit = false := by
  simp only [stripResultsDigits, removeDigits, List.any_eq_false]
  intro c hc
  have := List.of_mem_filter hc
  simp_all

/-- C8 (amended): the quantified-outcome bonus is exactly +1.5 *on top of the
keyword score of the story's own serialized text*.  Removing the digits from
`results` changes the serialized haystack, so the claim holds under the
proviso that no query keyword and no role keyword changes its substring-match
status under the digit removal; then the digit-bearing story scores exactly
1.5 more than the stripped story, hence strictly higher.  (Without the
proviso the claim is false — see the counterexample, where the removed digit
was itself a matched keyword.) -/
theorem c8_amended_quantified_bonus (story : CaseStory) (role : String)
    (kws : List (String × List String))
    (hd : story.results.data.any Char.isDigit = true)
    (hkw : ∀ cat ∈ kws, ∀ kw ∈ cat.2,
      strContains (pyLower (jsonDumpsStory (stripResultsDigits story))) kw =
        strContains (pyLower (jsonDumpsStory story)) kw)
    (hrole : ∀ kw ∈ get_role_specific_keywords role,
      strContains (pyLower (jsonDumpsStory (stripResultsDigits story))) kw =
        strContains (pyLower (jsonDumpsStory story)) kw) :
    score_case_story_relevance story role kws =
      score_case_story_relevance (stripResultsDigits story) role kws + 3 / 2 ∧
    score_case_story_relevance (stripResultsDigits story) role kws <
      score_case_story_relevance story role kws := by
  have hnod := stripResults_no_digit story
  have hmap : kws.map (fun cat =>
        ((cat.2.filter (fun kw =>
          strContains (pyLower (jsonDumpsStory (stripResultsDigits story)))
            kw)).length : ℚ)) =
      kws.map (fun cat =>
        ((cat.2.filter (fun kw =>
          strContains (pyLower (jsonDumpsStory story)) kw)).length : ℚ)) := by
    apply List.map_congr_left
    intro cat hcat
    exact congrArg (fun n : Nat => (n : ℚ))
      (congrArg List.length
        (List.filter_congr (fun kw hkw2 => hkw cat hcat kw hkw2)))
  have hrole2 : (get_role_specific_keywords role).filter (fun kw =>
        strContains (pyLower (jsonDumpsStory (stripResultsDigits story))) kw) =
      (get_role_specific_keywords role).filter (fun kw =>
        strContains (pyLower (jsonDumpsStory story)) kw) :=
    List.filter_congr hrole
  simp only [score_case_story_relevance, hmap, hrole2, hd, hnod]
  norm_num

def c8cexStory : CaseStory := ⟨"t", "s", "k", "a", "8", [], "i"⟩

def c8cexKeywords : List (String × List String) := [("cat", ["8"])]

/-- C8 (counterexample): the scorer matches keywords against the serialized
story, so removing the digits from `results` can also remove keyword
matches.  Here the digit `8` is itself a query keyword: the original story
scores 1 (keyword) + 2 (role keyword `results`, which matches the JSON key)
+ 1.5 (bonus) = 4.5, while the stripped story scores 2, so the difference is
2.5, not the claimed exact 1.5. -/
theorem c8_counterexample :
    c8cexStory.results.data.any Char.isDigit = true ∧
    score_case_story_relevance c8cexStory "x" c8cexKeywords ≠
      score_case_story_relevance (stripResultsDigits c8cexStory) "x"
        c8cexKeywords + 3 / 2 := by
  refine ⟨rfl, ?_⟩
  have hkw1 : ["8"].filter (fun kw =>
      strContains (pyLower (jsonDumpsStory c8cexStory)) kw) = ["8"] := rfl
  have hkw2 : ["8"].filter (fun kw =>
      strContains (pyLower (jsonDumpsStory (stripResultsDigits c8cexStory)))
        kw) = [] := rfl
  have hr1 : (get_role_specific_keywords "x").filter (fun kw =>
      strContains (pyLower (jsonDumpsStory c8cexStory)) kw) = ["results"] := rfl
  have hr2 : (get_role_specific_keywords "x").filter (fun kw =>
      strContains (pyLower (jsonDumpsStory (stripResultsDigits c8cexStory)))
        kw) = ["results"] := rfl
  have hd1 : c8cexStory.results.data.any Char.isDigit = true := rfl
  have hd2 : (stripResultsDigits c8cexStory).results.data.any Char.isDigit =
      false := rfl
  unfold score_case_story_relevance
  simp only [c8cexKeywords, List.map_cons, List.map_nil, hkw1, hkw2, hr1, hr2,
    hd1, hd2]
  norm_num

def c8wStory : CaseStory :=
  ⟨"Checkout revamp", "Legacy funnel friction", "Improve conversion",
   "Ran experiments", "conversion rate improved 8.4%", [], "Retail"⟩

def c8wKeywords : List (String × List String) := [("conversion", ["conversion"])]

/-- C8 amended-claim witness: the spec's own scenario (a story with
"conversion rate ... 8.4%" in its results, a `conversion` query group and a
growth role), where digit removal changes no keyword match: the digit-bearing
story scores exactly 1.5 more, hence strictly higher. -/
theorem c8_amended_witness :
    score_case_story_relevance c8wStory "Growth Product Manager" c8wKeywords =
      score_case_story_relevance (stripResultsDigits c8wStory)
        "Growth Product Manager" c8wKeywords + 3 / 2 ∧
    score_case_story_relevance (stripResultsDigits c8wStory)
        "Growth Product Manager" c8wKeywords <
      score_case_story_relevance c8wStory "Growth Product Manager"
        c8wKeywords :=
  c8_amended_quantified_bonus c8wStory "Growth Product Manager" c8wKeywords
    rfl (by decide) (by decide)
